import Mathlib

/-!
Shallow embedding of the admin-console logic of this repository
(src/src/App.jsx and src/src/utils/error.js).

JavaScript values stored in form-field slots are modelled by `JsVal`
(string / number / boolean); JavaScript numbers that can be NaN are
modelled by `JsNumber` (a rational or NaN).  The asynchronous handlers
are modelled as pure state transitions: the outcome of every network
round trip is supplied by an `Env` record, and the observable side
effects (alerts, console logging, API calls, token writes) are
collected in a list of `Effect`s.
-/

/-- A JavaScript value as stored in the draft product's fields:
a string, a (non-NaN) number, or a boolean. -/
inductive JsVal where
  | str : String → JsVal
  | num : Rat → JsVal
  | bool : Bool → JsVal
deriving DecidableEq, Repr

/-- JavaScript truthiness of a `JsVal`: the empty string, the number 0
and `false` are falsy, everything else is truthy. -/
def JsVal.truthy : JsVal → Bool
  | .str s => s != ""
  | .num r => decide (r ≠ 0)
  | .bool b => b

/-- A JavaScript number: either an actual (rational) value or NaN. -/
inductive JsNumber where
  | val : Rat → JsNumber
  | nan : JsNumber
deriving DecidableEq, Repr

/-- `n < 0` in JavaScript; any comparison against NaN is false. -/
def JsNumber.ltZero : JsNumber → Bool
  | .val r => decide (r < 0)
  | .nan => false

/-- Numeric value of a list of decimal digit characters. -/
def digitsVal (l : List Char) : Nat :=
  l.foldl (fun acc c => acc * 10 + (c.toNat - 48)) 0

/-- Non-empty and all decimal digits. -/
def isDigits (l : List Char) : Bool :=
  !l.isEmpty && l.all Char.isDigit

/-- Leading sign of a numeric literal: returns (isNegative, remainder). -/
def splitSign : List Char → Bool × List Char
  | [] => (false, [])
  | c :: r =>
    if c = '-' then (true, r)
    else if c = '+' then (false, r)
    else (false, c :: r)

/-- Unsigned mantissa `digits [. digits]` of a JavaScript numeric string
(at least one digit overall); anything else is NaN. -/
def parseUnsignedMantissa (l : List Char) : JsNumber :=
  let ip := l.takeWhile (fun c => c != '.')
  let rest := l.drop ip.length
  match rest with
  | [] => if isDigits ip then .val (digitsVal ip) else .nan
  | _ :: fp =>
    if ip.isEmpty && fp.isEmpty then .nan
    else if ip.all Char.isDigit && fp.all Char.isDigit then
      .val ((digitsVal ip : Rat) + (digitsVal fp : Rat) / ((10 : Rat) ^ fp.length))
    else .nan

/-- Scale a mantissa by a decimal exponent. -/
def applyExponent (m : Rat) (eneg : Bool) (e : Nat) : Rat :=
  if eneg then m / (10 : Rat) ^ e else m * (10 : Rat) ^ e

/-- Strip surrounding whitespace from a character list. -/
def trimChars (l : List Char) : List Char :=
  ((l.dropWhile Char.isWhitespace).reverse.dropWhile Char.isWhitespace).reverse

/-- JavaScript `Number(value)` on the strings an `<input type="number">`
can produce: surrounding whitespace is trimmed, the empty string is 0,
otherwise `[sign] digits [. digits] [(e|E) [sign] digits]` parses to its
value and everything else is NaN. -/
def jsStringToNumber (s : String) : JsNumber :=
  let l := trimChars s.data
  if l.isEmpty then .val 0
  else
    let p := splitSign l
    let mant := p.2.takeWhile (fun c => c != 'e' && c != 'E')
    let rest := p.2.drop mant.length
    let base : JsNumber :=
      match rest with
      | [] => parseUnsignedMantissa mant
      | _ :: er =>
        let q := splitSign er
        if isDigits q.2 then
          match parseUnsignedMantissa mant with
          | .val m => .val (applyExponent m q.1 (digitsVal q.2))
          | .nan => .nan
        else .nan
    match base with
    | .val r => .val (if p.1 then -r else r)
    | .nan => .nan

/-- JavaScript `Number(v)` on a `JsVal`. -/
def jsToNumber : JsVal → JsNumber
  | .num r => .val r
  | .bool b => .val (if b then 1 else 0)
  | .str s => jsStringToNumber s

/-- An error object reaching a catch block: `responseMessage` models
`error.response.data.message` (`none` when any link of the optional
chain is absent) and `message` models `error.message`. -/
structure JsError where
  responseMessage : Option String
  message : Option String
deriving DecidableEq, Repr

/-- src/src/utils/error.js `getErrorMessage`:
`error?.response?.data?.message || error.message || '發生未知錯誤'`. -/
def getErrorMessage (e : JsError) : String :=
  let a := e.responseMessage.getD ""
  if a != "" then a
  else
    let b := e.message.getD ""
    if b != "" then b
    else "發生未知錯誤"

/-- A product record (also used as the modal's draft `templateProduct`).
Fields that the form can hold as either a raw string, a number or a
boolean (`origin_price`, `price`, `is_enabled`) are `JsVal`s. -/
structure Product where
  id : String
  title : String
  category : String
  origin_price : JsVal
  price : JsVal
  unit : String
  description : String
  content : String
  is_enabled : JsVal
  imageUrl : String
  imagesUrl : List String
deriving DecidableEq, Repr

/-- The blank template `initialProduct` of src/src/App.jsx. -/
def initialProduct : Product :=
  { id := "", title := "", category := "", origin_price := .num 0,
    price := .num 0, unit := "", description := "", content := "",
    is_enabled := .num 0, imageUrl := "", imagesUrl := [] }

/-- `(currentMain ? 1 : 0) + currentSubs.length`: total number of images
(primary plus secondaries) held by a draft. -/
def totalImages (p : Product) : Nat :=
  (if p.imageUrl ≠ "" then 1 else 0) + p.imagesUrl.length

/-- src/src/App.jsx `handleAddImage`, applied to the pending input `url`
(the component also clears the pending input afterwards): no-op when the
input is empty or 4 images are already present; otherwise the url fills
the empty primary slot, or failing that is appended to the secondaries. -/
def handleAddImage (url : String) (p : Product) : Product :=
  if url = "" then p
  else if totalImages p ≥ 4 then p
  else if p.imageUrl = "" then { p with imageUrl := url }
  else { p with imagesUrl := p.imagesUrl ++ [url] }

/-- src/src/App.jsx `handleRemoveImage`: index 0 removes the primary,
promoting the first secondary when one exists; index k ≥ 1 splices the
secondary at position k−1 out of the list. -/
def handleRemoveImage (index : Nat) (p : Product) : Product :=
  if index = 0 then
    match p.imagesUrl with
    | [] => { p with imageUrl := "", imagesUrl := [] }
    | h :: t => { p with imageUrl := h, imagesUrl := t }
  else
    { p with imagesUrl := p.imagesUrl.eraseIdx (index - 1) }

/-- The image invariant: at most 4 images in total, and the secondary
list is non-empty only when the primary slot is filled. -/
def imagesInvariant (p : Product) : Prop :=
  totalImages p ≤ 4 ∧ (p.imagesUrl = [] ∨ p.imageUrl ≠ "")

instance (p : Product) : Decidable (imagesInvariant p) := by
  unfold imagesInvariant; infer_instance

/-- The record submitted as `productData.data` by `updateProduct` of
src/src/App.jsx: the draft spread out with `origin_price` and `price`
passed through `Number(...)`, `is_enabled` collapsed to 1/0 by the
conditional operator, and the empty strings filtered out of `imagesUrl`. -/
structure SubmitRecord where
  id : String
  title : String
  category : String
  origin_price : JsNumber
  price : JsNumber
  unit : String
  description : String
  content : String
  is_enabled : Int
  imageUrl : String
  imagesUrl : List String
deriving DecidableEq, Repr

/-- Builds the `productData.data` object of `updateProduct`
(src/src/App.jsx lines 304-312) from the current draft. -/
def buildProductData (p : Product) : SubmitRecord :=
  { id := p.id, title := p.title, category := p.category,
    origin_price := jsToNumber p.origin_price,
    price := jsToNumber p.price,
    unit := p.unit, description := p.description, content := p.content,
    is_enabled := if p.is_enabled.truthy then 1 else 0,
    imageUrl := p.imageUrl,
    imagesUrl := p.imagesUrl.filter (fun url => url != "") }

/-- Kind of a form input, as read from `e.target.type`. -/
inductive FieldType where
  | checkbox
  | number
  | text
deriving DecidableEq, Repr

/-- src/src/App.jsx `handleModalInputChange`: the `newValue` stored into
`templateProduct[name]` for a change event carrying `value` (always a
string in the DOM), `checked`, and the input's `type`. -/
def handleModalInputValue (ty : FieldType) (value : String) (checked : Bool) : JsVal :=
  match ty with
  | .checkbox => .bool checked
  | .number =>
    let numValue := jsStringToNumber value
    if value = "" then .str ""
    else if numValue.ltZero then .num 0
    else .str value
  | .text => .str value

/-- A concrete draft used to instantiate the universally quantified
theorems below. -/
def demoProduct : Product :=
  { initialProduct with imageUrl := "a", imagesUrl := ["b", "c"] }

theorem addImage_preserves_invariant (u : String) (p : Product)
    (h : imagesInvariant p) : imagesInvariant (handleAddImage u p) := by
  obtain ⟨h1, h2⟩ := h
  by_cases hu : u = ""
  · simpa [handleAddImage, hu] using ⟨h1, h2⟩
  by_cases hge : totalImages p ≥ 4
  · simpa [handleAddImage, hu, hge] using ⟨h1, h2⟩
  by_cases hmain : p.imageUrl = ""
  · have hlen : p.imagesUrl.length < 4 := by
      unfold totalImages at hge; simp [hmain] at hge; omega
    simp only [handleAddImage, if_neg hu, if_neg hge, if_pos hmain]
    refine ⟨?_, Or.inr (by simpa using hu)⟩
    unfold totalImages
    simp [hu]
    omega
  · have hlt : totalImages p < 4 := by omega
    simp only [handleAddImage, if_neg hu, if_neg hge, if_neg hmain]
    refine ⟨?_, Or.inr (by simpa using hmain)⟩
    unfold totalImages at hlt ⊢
    simp [hmain] at hlt ⊢
    omega

theorem addImage_foldl_invariant (urls : List String) (p : Product)
    (h : imagesInvariant p) :
    imagesInvariant (urls.foldl (fun s u => handleAddImage u s) p) := by
  induction urls generalizing p with
  | nil => exact h
  | cons u rest ih => exact ih _ (addImage_preserves_invariant u p h)

/-- C1: starting from any state satisfying the image invariant, any
sequence of `handleAddImage` calls keeps the total image count at most 4
and keeps secondaries non-empty only when the primary is filled; while
the primary slot is empty nothing is ever appended to the secondaries;
and `handleAddImage` is a no-op on an empty pending URL or when the
total is already 4. -/
theorem claim_addImage_invariant (p : Product) (urls : List String)
    (hinv : imagesInvariant p) (_hne : ∀ u ∈ urls, u ≠ "") :
    imagesInvariant (urls.foldl (fun s u => handleAddImage u s) p) ∧
    handleAddImage "" p = p ∧
    (∀ u, totalImages p = 4 → handleAddImage u p = p) ∧
    (∀ u, p.imageUrl = "" → (handleAddImage u p).imagesUrl = p.imagesUrl) := by
  refine ⟨addImage_foldl_invariant urls p hinv, by simp [handleAddImage], ?_, ?_⟩
  · intro u h4
    unfold handleAddImage
    by_cases hu : u = ""
    · simp [hu]
    · simp [hu, h4]
  · intro u hmain
    unfold handleAddImage
    by_cases hu : u = ""
    · simp [hu]
    · by_cases hge : totalImages p ≥ 4
      · simp [hu, hge]
      · simp [hu, hge, hmain]

theorem claim_addImage_invariant_witness :
    imagesInvariant
      (["a", "b", "c", "d", "e"].foldl (fun s u => handleAddImage u s) initialProduct) ∧
    handleAddImage "" initialProduct = initialProduct ∧
    (∀ u, totalImages initialProduct = 4 → handleAddImage u initialProduct = initialProduct) ∧
    (∀ u, initialProduct.imageUrl = "" →
      (handleAddImage u initialProduct).imagesUrl = initialProduct.imagesUrl) :=
  claim_addImage_invariant initialProduct ["a", "b", "c", "d", "e"]
    (by decide) (by decide)

/-- C2: `handleRemoveImage 0` promotes the first secondary to the
primary slot (or empties the primary when there is no secondary) and
shifts the remaining secondaries left; `handleRemoveImage k` for k ≥ 1
with k−1 in range removes exactly the secondary at position k−1, keeping
the primary and the relative order of the other secondaries, with no gap
(the list closes up to one element shorter). -/
theorem claim_removeImage (p : Product) :
    (p.imagesUrl = [] → handleRemoveImage 0 p = { p with imageUrl := "", imagesUrl := [] }) ∧
    (∀ a t, p.imagesUrl = a :: t → handleRemoveImage 0 p = { p with imageUrl := a, imagesUrl := t }) ∧
    (∀ k, 1 ≤ k → k - 1 < p.imagesUrl.length →
      (handleRemoveImage k p).imageUrl = p.imageUrl ∧
      (handleRemoveImage k p).imagesUrl = p.imagesUrl.take (k - 1) ++ p.imagesUrl.drop k ∧
      (handleRemoveImage k p).imagesUrl.length + 1 = p.imagesUrl.length) := by
  refine ⟨?_, ?_, ?_⟩
  · intro hnil
    simp [handleRemoveImage, hnil]
  · intro a t hat
    simp [handleRemoveImage, hat]
  · intro k hk1 hk2
    have hk0 : ¬ k = 0 := by omega
    have hsucc : k - 1 + 1 = k := by omega
    unfold handleRemoveImage
    rw [if_neg hk0]
    refine ⟨rfl, ?_, ?_⟩
    · show p.imagesUrl.eraseIdx (k - 1) = _
      rw [List.eraseIdx_eq_take_drop_succ, hsucc]
    · show (p.imagesUrl.eraseIdx (k - 1)).length + 1 = _
      rw [List.eraseIdx_eq_take_drop_succ, hsucc]
      simp
      omega

theorem claim_removeImage_witness :
    (handleRemoveImage 2 demoProduct).imageUrl = demoProduct.imageUrl ∧
    (handleRemoveImage 2 demoProduct).imagesUrl =
      demoProduct.imagesUrl.take 1 ++ demoProduct.imagesUrl.drop 2 ∧
    (handleRemoveImage 2 demoProduct).imagesUrl.length + 1 =
      demoProduct.imagesUrl.length :=
  (claim_removeImage demoProduct).2.2 2 (by decide) (by decide)

/-- C3: for every draft, the record built at submit time has
`is_enabled` exactly 1 when the stored value is truthy and exactly 0
when it is falsy, has `origin_price` and `price` coerced to numbers via
`Number(...)`, and an `imagesUrl` list with no empty-string entries. -/
theorem claim_submit_record (p : Product) :
    ((buildProductData p).is_enabled = 1 ∨ (buildProductData p).is_enabled = 0) ∧
    (p.is_enabled.truthy = true → (buildProductData p).is_enabled = 1) ∧
    (p.is_enabled.truthy = false → (buildProductData p).is_enabled = 0) ∧
    (buildProductData p).origin_price = jsToNumber p.origin_price ∧
    (buildProductData p).price = jsToNumber p.price ∧
    "" ∉ (buildProductData p).imagesUrl := by
  refine ⟨?_, ?_, ?_, rfl, rfl, ?_⟩
  · by_cases h : p.is_enabled.truthy <;> simp [buildProductData, h]
  · intro h; simp [buildProductData, h]
  · intro h; simp [buildProductData, h]
  · intro hmem
    simp only [buildProductData] at hmem
    have h2 := (List.mem_filter.mp hmem).2
    simp at h2

theorem claim_submit_record_witness :
    ((buildProductData demoProduct).is_enabled = 1 ∨
      (buildProductData demoProduct).is_enabled = 0) ∧
    (demoProduct.is_enabled.truthy = true → (buildProductData demoProduct).is_enabled = 1) ∧
    (demoProduct.is_enabled.truthy = false → (buildProductData demoProduct).is_enabled = 0) ∧
    (buildProductData demoProduct).origin_price = jsToNumber demoProduct.origin_price ∧
    (buildProductData demoProduct).price = jsToNumber demoProduct.price ∧
    "" ∉ (buildProductData demoProduct).imagesUrl :=
  claim_submit_record demoProduct

/-- C4 counterexample: on input "-5" the normalizer stores the number 0,
not the string "0" that the claim asserts. -/
theorem claim_numeric_input_counterexample :
    handleModalInputValue .number "-5" false = JsVal.num 0 ∧
    handleModalInputValue .number "-5" false ≠ JsVal.str "0" := by
  decide

/-- C4 (amended): for every change event on a numeric form field, the
normalizer stores the empty string when the input is the empty string,
stores the number 0 (not a string) when the parsed input is a negative
number (e.g. input "-5" is stored as the number 0), and stores the raw
unconverted input string in every other numeric case (e.g. input "12" is
stored as "12"). -/
theorem claim_numeric_input_amended (value : String) (checked : Bool) :
    (value = "" → handleModalInputValue .number value checked = .str "") ∧
    (value ≠ "" → (jsStringToNumber value).ltZero = true →
      handleModalInputValue .number value checked = .num 0) ∧
    (value ≠ "" → (jsStringToNumber value).ltZero = false →
      handleModalInputValue .number value checked = .str value) ∧
    handleModalInputValue .number "-5" checked = .num 0 ∧
    handleModalInputValue .number "12" checked = .str "12" ∧
    handleModalInputValue .number "" checked = .str "" := by
  refine ⟨?_, ?_, ?_, ?_, ?_, ?_⟩
  · intro h; simp [handleModalInputValue, h]
  · intro h1 h2; simp [handleModalInputValue, h1, h2]
  · intro h1 h2; simp [handleModalInputValue, h1, h2]
  · cases checked <;> decide
  · cases checked <;> decide
  · cases checked <;> decide

theorem claim_numeric_input_witness :
    handleModalInputValue .number "-5" false = JsVal.num 0 :=
  (claim_numeric_input_amended "-5" false).2.1 (by decide) (by decide)

/-- Observable side effects of the asynchronous handlers: blocking
alerts, console logging, the HTTP round trips they start, and writes to
the persisted credential. -/
inductive Effect where
  | alert : String → Effect
  | consoleError : String → Effect
  | apiGetProducts : Effect
  | apiPutProduct : String → Effect
  | apiPostSignin : Effect
  | apiVerifyToken : String → Effect
  | setToken : String → String → Effect
  | removeToken : Effect
deriving DecidableEq, Repr

/-- Body of a successful sign-in response: `{token, expired}`. -/
structure SigninData where
  token : String
  expired : String
deriving DecidableEq, Repr

/-- Outcome of each network round trip, supplied by the environment: an
axios promise either resolves with the response body or rejects with an
error. `verifyResult` carries `res.data.success`, `productsResult`
carries `res.data.products`, `putResult` carries `res.data.message`. -/
structure Env where
  signinResult : Except JsError SigninData
  verifyResult : Except JsError Bool
  productsResult : Except JsError (List Product)
  putResult : Except JsError String

/-- The component state held by the `useState` hooks of src/src/App.jsx,
plus the Bootstrap modal's shown/hidden state. -/
structure AppState where
  isAuth : Bool
  isCheckingAuth : Bool
  products : List Product
  templateProduct : Product
  tempImageInput : String
  modeType : String
  isLoading : Bool
  modalShown : Bool
deriving DecidableEq, Repr

/-- The initial values of the `useState` hooks. -/
def initialAppState : AppState :=
  { isAuth := false, isCheckingAuth := true, products := [],
    templateProduct := initialProduct, tempImageInput := "",
    modeType := "", isLoading := false, modalShown := false }

/-- src/src/App.jsx `getProducts`: on success replaces the product list
with the response; on failure logs the formatted error and leaves the
list untouched. -/
def getProducts (env : Env) (s : AppState) : AppState × List Effect :=
  match env.productsResult with
  | .ok l => ({ s with products := l }, [.apiGetProducts])
  | .error e =>
    (s, [.apiGetProducts, .consoleError ("API 錯誤: " ++ getErrorMessage e)])

/-- The TypeError raised when `products.find` yields `undefined` and
`target.is_enabled` is then read (V8 wording, the quotes around the
property name omitted). -/
def typeErrorReadIsEnabled : JsError :=
  { responseMessage := none,
    message := some "Cannot read properties of undefined (reading is_enabled)" }

/-- The try-block of src/src/App.jsx `updateProductStatus`: looks the
product up, flips `is_enabled` with `=== 1 ? 0 : 1`, PUTs the full
record, alerts the response message and patches the local list.  Returns
the effects emitted before any throw, and either the new state or the
thrown error (a TypeError when the id is absent, the axios error when
the PUT rejects). -/
def updateProductStatusTry (id : String) (env : Env) (s : AppState) :
    List Effect × Except JsError AppState :=
  match s.products.find? (fun product => product.id == id) with
  | none => ([], .error typeErrorReadIsEnabled)
  | some target =>
    let newEnabled : JsVal :=
      if target.is_enabled = JsVal.num 1 then JsVal.num 0 else JsVal.num 1
    match env.putResult with
    | .error e => ([.apiPutProduct id], .error e)
    | .ok msg =>
      ([.apiPutProduct id, .alert msg],
        .ok { s with products :=
          s.products.map (fun item =>
            if item.id == id then { item with is_enabled := newEnabled }
            else item) })

/-- src/src/App.jsx `updateProductStatus`: the catch block logs the
formatted error to the console and swallows it, leaving the state as it
was. -/
def updateProductStatus (id : String) (env : Env) (s : AppState) :
    AppState × List Effect :=
  match updateProductStatusTry id env s with
  | (effs, .ok s1) => (s1, effs)
  | (effs, .error e) =>
    (s, effs ++ [.consoleError ("API 錯誤: " ++ getErrorMessage e)])

/-- src/src/App.jsx `checkAdmin`: reads the stored token; with none it
just drops to unauthenticated.  Otherwise it verifies the token; on
`success=true` it awaits the product fetch and authenticates, on
`success=false` it de-authenticates silently, and on a rejected request
the catch block alerts the formatted error and de-authenticates.  The
finally block always clears `isLoading` and `isCheckingAuth`. -/
def checkAdmin (token : Option String) (env : Env) (s : AppState) :
    AppState × List Effect :=
  match token with
  | none =>
    ({ s with isAuth := false, isLoading := false, isCheckingAuth := false }, [])
  | some t =>
    match env.verifyResult with
    | .error e =>
      ({ s with isAuth := false, isLoading := false, isCheckingAuth := false },
        [.apiVerifyToken t,
         .alert ("請重新登入！Token 驗證失敗：" ++ getErrorMessage e)])
    | .ok true =>
      let r := getProducts env s
      ({ r.1 with isAuth := true, isLoading := false, isCheckingAuth := false },
        .apiVerifyToken t :: r.2)
    | .ok false =>
      ({ s with isAuth := false, isLoading := false, isCheckingAuth := false },
        [.apiVerifyToken t])

/-- src/src/App.jsx `handleLogin`: posts the credentials; on success it
persists the returned token and expiry, awaits the product fetch and
authenticates; on failure it alerts the formatted error (suffixed "!")
and re-throws.  The third component is the promise observed by the
caller. -/
def handleLogin (env : Env) (s : AppState) :
    AppState × List Effect × Except JsError Unit :=
  match env.signinResult with
  | .ok d =>
    let r := getProducts env s
    ({ r.1 with isAuth := true, isLoading := false },
      .apiPostSignin :: .setToken d.token d.expired :: r.2, .ok ())
  | .error e =>
    ({ s with isLoading := false },
      [.apiPostSignin, .alert (getErrorMessage e ++ "!")], .error e)

/-- src/src/App.jsx `openModal`: `openModal(type, product =
initialProduct)` stores the mode, replaces the draft with
`{...initialProduct, ...product}` (a full record given here overrides
every field of the blank template) and shows the modal. -/
def openModal (ty : String) (product? : Option Product) (s : AppState) : AppState :=
  { s with modeType := ty,
           templateProduct := product?.getD initialProduct,
           modalShown := true }

/-- src/src/App.jsx `closeModal`: hides the modal and touches nothing
else. -/
def closeModal (s : AppState) : AppState :=
  { s with modalShown := false }

/-- Environment with a stored token whose verification resolves with
`success=false`. -/
def envVerifyFalse : Env :=
  { signinResult := .error { responseMessage := none, message := none },
    verifyResult := .ok false, productsResult := .ok [], putResult := .ok "" }

/-- Environment for a successful login. -/
def envLoginOk : Env :=
  { signinResult := .ok { token := "tok", expired := "exp" },
    verifyResult := .ok true, productsResult := .ok [demoProduct],
    putResult := .ok "" }

/-- C5 counterexample: with a stored token and a verification response
of `success=false`, the run emits only the verification call — no alert
fires, contrary to the claim that every verification failure surfaces
one. -/
theorem claim_checkAdmin_counterexample :
    (checkAdmin (some "t") envVerifyFalse initialAppState).1.isAuth = false ∧
    (checkAdmin (some "t") envVerifyFalse initialAppState).2 =
      [Effect.apiVerifyToken "t"] :=
  ⟨rfl, rfl⟩

/-- C5 (amended): on start, no stored credential sets
isAuthenticated=false with no verification call; a stored credential
whose verification succeeds fetches the product list and sets
isAuthenticated=true; a verification network error sets
isAuthenticated=false, clears nothing, and surfaces an alert containing
the formatted error; a success=false response sets isAuthenticated=false
and clears nothing, with no alert. -/
theorem claim_checkAdmin_amended (env : Env) (s : AppState) :
    ((checkAdmin none env s).1.isAuth = false ∧ (checkAdmin none env s).2 = []) ∧
    (∀ t, env.verifyResult = .ok true →
      (checkAdmin (some t) env s).1.isAuth = true ∧
      Effect.apiGetProducts ∈ (checkAdmin (some t) env s).2 ∧
      (∀ l, env.productsResult = .ok l →
        (checkAdmin (some t) env s).1.products = l)) ∧
    (∀ t e, env.verifyResult = .error e →
      (checkAdmin (some t) env s).1.isAuth = false ∧
      Effect.alert ("請重新登入！Token 驗證失敗：" ++ getErrorMessage e)
        ∈ (checkAdmin (some t) env s).2 ∧
      Effect.removeToken ∉ (checkAdmin (some t) env s).2) ∧
    (∀ t, env.verifyResult = .ok false →
      (checkAdmin (some t) env s).1.isAuth = false ∧
      (∀ m, Effect.alert m ∉ (checkAdmin (some t) env s).2) ∧
      Effect.removeToken ∉ (checkAdmin (some t) env s).2) := by
  refine ⟨⟨rfl, rfl⟩, ?_, ?_, ?_⟩
  · intro t hv
    refine ⟨?_, ?_, ?_⟩
    · simp [checkAdmin, hv]
    · cases hp : env.productsResult with
      | ok l => simp [checkAdmin, hv, getProducts, hp]
      | error e => simp [checkAdmin, hv, getProducts, hp]
    · intro l hp
      simp [checkAdmin, hv, getProducts, hp]
  · intro t e hv
    refine ⟨?_, ?_, ?_⟩ <;> simp [checkAdmin, hv]
  · intro t hv
    refine ⟨?_, ?_, ?_⟩ <;> simp [checkAdmin, hv]

theorem claim_checkAdmin_witness :
    (checkAdmin (some "t") envLoginOk initialAppState).1.isAuth = true ∧
    Effect.apiGetProducts ∈ (checkAdmin (some "t") envLoginOk initialAppState).2 ∧
    (∀ l, envLoginOk.productsResult = .ok l →
      (checkAdmin (some "t") envLoginOk initialAppState).1.products = l) :=
  (claim_checkAdmin_amended envLoginOk initialAppState).2.1 "t" rfl

/-- C6: on a successful sign-in the returned token and expiry are
persisted, the product list is fetched (and populated when the fetch
succeeds), isAuthenticated becomes true and the caller observes a
resolved promise; on a failed sign-in isAuthenticated stays false, an
alert with the formatted error (suffixed "!") fires, and the same error
is re-raised to the caller. -/
theorem claim_login (env : Env) (s : AppState) :
    (∀ d, env.signinResult = .ok d →
      Effect.setToken d.token d.expired ∈ (handleLogin env s).2.1 ∧
      Effect.apiGetProducts ∈ (handleLogin env s).2.1 ∧
      (handleLogin env s).1.isAuth = true ∧
      (handleLogin env s).2.2 = .ok () ∧
      (∀ l, env.productsResult = .ok l → (handleLogin env s).1.products = l)) ∧
    (∀ e, env.signinResult = .error e →
      (s.isAuth = false → (handleLogin env s).1.isAuth = false) ∧
      Effect.alert (getErrorMessage e ++ "!") ∈ (handleLogin env s).2.1 ∧
      (handleLogin env s).2.2 = .error e) := by
  constructor
  · intro d hs
    refine ⟨?_, ?_, ?_, ?_, ?_⟩
    · simp [handleLogin, hs]
    · cases hp : env.productsResult with
      | ok l => simp [handleLogin, hs, getProducts, hp]
      | error e => simp [handleLogin, hs, getProducts, hp]
    · simp [handleLogin, hs]
    · simp [handleLogin, hs]
    · intro l hp
      simp [handleLogin, hs, getProducts, hp]
  · intro e hs
    refine ⟨?_, ?_, ?_⟩
    · intro hA
      simp [handleLogin, hs, hA]
    · simp [handleLogin, hs]
    · simp [handleLogin, hs]

theorem claim_login_witness :
    Effect.setToken "tok" "exp" ∈ (handleLogin envLoginOk initialAppState).2.1 ∧
    Effect.apiGetProducts ∈ (handleLogin envLoginOk initialAppState).2.1 ∧
    (handleLogin envLoginOk initialAppState).1.isAuth = true ∧
    (handleLogin envLoginOk initialAppState).2.2 = Except.ok () ∧
    (handleLogin envLoginOk initialAppState).1.products = [demoProduct] := by
  have h := (claim_login envLoginOk initialAppState).1
    { token := "tok", expired := "exp" } rfl
  exact ⟨h.1, h.2.1, h.2.2.1, h.2.2.2.1, h.2.2.2.2 [demoProduct] rfl⟩

/-- C7: with product id present in the list, a successful toggle patches
the list pointwise — the matching product gets exactly the flipped
`is_enabled` (`=== 1 ? 0 : 1` of the found record) with every other
field kept, and every product with a different id is kept verbatim; on a
rejected PUT the state is returned unchanged and the run only logs the
formatted error after the PUT call. -/
theorem claim_toggleEnabled (id : String) (env : Env) (s : AppState)
    (target : Product)
    (hfind : s.products.find? (fun product => product.id == id) = some target) :
    (∀ msg, env.putResult = .ok msg →
      (updateProductStatus id env s).1.products.length = s.products.length ∧
      (∀ i, i < s.products.length →
        (updateProductStatus id env s).1.products[i]? =
          (s.products[i]?).map (fun item =>
            if item.id == id then
              { item with is_enabled :=
                  if target.is_enabled = JsVal.num 1 then JsVal.num 0
                  else JsVal.num 1 }
            else item)) ∧
      (updateProductStatus id env s).2 = [.apiPutProduct id, .alert msg]) ∧
    (∀ e, env.putResult = .error e →
      updateProductStatus id env s =
        (s, [.apiPutProduct id,
             .consoleError ("API 錯誤: " ++ getErrorMessage e)])) := by
  constructor
  · intro msg hput
    refine ⟨?_, ?_, ?_⟩
    · simp [updateProductStatus, updateProductStatusTry, hfind, hput]
    · intro i hi
      simp [updateProductStatus, updateProductStatusTry, hfind, hput]
    · simp [updateProductStatus, updateProductStatusTry, hfind, hput]
  · intro e hput
    simp [updateProductStatus, updateProductStatusTry, hfind, hput]

/-- Concrete enabled product with id "x". -/
def demoTargetX : Product :=
  { initialProduct with id := "x", is_enabled := JsVal.num 1 }

/-- A two-product list used to instantiate the toggle theorems. -/
def demoState : AppState :=
  { initialAppState with products :=
      [demoTargetX, { initialProduct with id := "y", is_enabled := JsVal.num 0 }] }

theorem claim_toggleEnabled_witness :
    (updateProductStatus "x" envLoginOk demoState).1.products.length =
      demoState.products.length ∧
    (∀ i, i < demoState.products.length →
      (updateProductStatus "x" envLoginOk demoState).1.products[i]? =
        (demoState.products[i]?).map (fun item =>
          if item.id == "x" then
            { item with is_enabled :=
                if demoTargetX.is_enabled = JsVal.num 1 then JsVal.num 0
                else JsVal.num 1 }
          else item)) ∧
    (updateProductStatus "x" envLoginOk demoState).2 =
      [.apiPutProduct "x", .alert ""] :=
  (claim_toggleEnabled "x" envLoginOk demoState demoTargetX rfl).1 "" rfl

/-- C9: opening the modal replaces the draft with the given product, or
with the blank template when none is given, regardless of the previous
draft, and records the mode and shows the modal; closing hides the modal
without clearing the draft. -/
theorem claim_modal (s : AppState) (ty : String) (p : Product) :
    (openModal ty none s).templateProduct = initialProduct ∧
    (openModal ty (some p) s).templateProduct = p ∧
    (openModal ty none s).modeType = ty ∧
    (openModal ty (some p) s).modalShown = true ∧
    (closeModal s).modalShown = false ∧
    (closeModal s).templateProduct = s.templateProduct :=
  ⟨rfl, rfl, rfl, rfl, rfl, rfl⟩

/-- C10: when the id is absent from the list, the lookup yields nothing,
reading `is_enabled` of `undefined` throws inside the try block before
any request is sent, and the catch block logs the formatted TypeError:
the state is returned unchanged, the only effect is the console log, and
no error escapes the handler. -/
theorem claim_toggle_missing_id (id : String) (env : Env) (s : AppState)
    (hfind : s.products.find? (fun product => product.id == id) = none) :
    (updateProductStatusTry id env s).2 = .error typeErrorReadIsEnabled ∧
    updateProductStatus id env s =
      (s, [Effect.consoleError
        ("API 錯誤: " ++ getErrorMessage typeErrorReadIsEnabled)]) := by
  constructor
  · simp [updateProductStatusTry, hfind]
  · simp [updateProductStatus, updateProductStatusTry, hfind]

theorem claim_toggle_missing_id_witness :
    (updateProductStatusTry "zzz" envLoginOk demoState).2 =
      .error typeErrorReadIsEnabled ∧
    updateProductStatus "zzz" envLoginOk demoState =
      (demoState, [Effect.consoleError
        ("API 錯誤: " ++ getErrorMessage typeErrorReadIsEnabled)]) :=
  claim_toggle_missing_id "zzz" envLoginOk demoState (by decide)

/-- C8: the error formatter extracts, in order: the response-body
message when a (non-empty) one is present, otherwise the error's own
transport message when non-empty, otherwise the fallback unknown-error
string. -/
theorem claim_error_message (e : JsError) :
    (∀ m, e.responseMessage = some m → m ≠ "" → getErrorMessage e = m) ∧
    ((e.responseMessage = none ∨ e.responseMessage = some "") →
      ∀ m, e.message = some m → m ≠ "" → getErrorMessage e = m) ∧
    ((e.responseMessage = none ∨ e.responseMessage = some "") →
      (e.message = none ∨ e.message = some "") →
      getErrorMessage e = "發生未知錯誤") := by
  refine ⟨?_, ?_, ?_⟩
  · intro m hm hne
    simp [getErrorMessage, hm, hne]
  · rintro (h | h) m hm hne <;> simp [getErrorMessage, h, hm, hne]
  · rintro (h | h) (h2 | h2) <;> simp [getErrorMessage, h, h2]

theorem claim_error_message_witness :
    getErrorMessage { responseMessage := some "server", message := some "net" } =
      "server" :=
  (claim_error_message
    { responseMessage := some "server", message := some "net" }).1
    "server" rfl (by decide)
